import Mathlib

/-!
Verification of the classification core of `py_model_router.py`.

The program suggests one of four chat-model labels ("o3", "o4-mini",
"GPT-4o", "GPT-4.1") from a free-text prompt.  Its logic is three pure
functions, embedded here over `List Char`:

* `normalize`   — `re.sub(r"\s+", " ", text.lower()).strip()`
* `contains_any` — `any(k in text for k in keywords)`
* `recommend_model` — the fixed keyword cascade with a length fallback.

The GUI shell of the program is presentation only and is not modelled.
-/

namespace Router

/-- Case-mapping table modelling Python `str.lower()` on the alphabet the
program's keyword lists use: ASCII letters plus the German umlauts. -/
def lowerPairs : List (Char × Char) :=
  [('A', 'a'), ('B', 'b'), ('C', 'c'), ('D', 'd'), ('E', 'e'), ('F', 'f'),
   ('G', 'g'), ('H', 'h'), ('I', 'i'), ('J', 'j'), ('K', 'k'), ('L', 'l'),
   ('M', 'm'), ('N', 'n'), ('O', 'o'), ('P', 'p'), ('Q', 'q'), ('R', 'r'),
   ('S', 's'), ('T', 't'), ('U', 'u'), ('V', 'v'), ('W', 'w'), ('X', 'x'),
   ('Y', 'y'), ('Z', 'z'), ('Ä', 'ä'), ('Ö', 'ö'), ('Ü', 'ü')]

/-- Lowercase one character (`str.lower()`, per character). -/
def lowerChar (c : Char) : Char :=
  match lowerPairs.lookup c with
  | some d => d
  | none => c

/-- Whitespace as matched by the pattern `\s` and by `str.strip()`
(the ASCII whitespace class). -/
def isSpace (c : Char) : Bool :=
  c = ' ' || c = '\t' || c = '\n' || c = '\r' || c = '\x0b' || c = '\x0c'

/-- Model of `re.sub(r"\s+", " ", ·)`: every maximal run of whitespace
characters is replaced by a single space. -/
def collapseWS : List Char → List Char
  | [] => []
  | [c] => if isSpace c then [' '] else [c]
  | c :: d :: cs =>
    if isSpace c && isSpace d then collapseWS (d :: cs)
    else (if isSpace c then ' ' else c) :: collapseWS (d :: cs)

/-- Model of `str.strip()`: drop leading and trailing whitespace. -/
def stripWS (l : List Char) : List Char :=
  ((l.dropWhile isSpace).reverse.dropWhile isSpace).reverse

/-- `normalize` from the source: lowercase, collapse whitespace runs to a
single space, trim both ends. -/
def normalize (text : List Char) : List Char :=
  stripWS (collapseWS (text.map lowerChar))

/-- Python's substring test `k in t` for strings. -/
def substr (k : List Char) : List Char → Bool
  | [] => k.isEmpty
  | c :: cs => k.isPrefixOf (c :: cs) || substr k cs

/-- `contains_any` from the source. -/
def contains_any (text : List Char) (keywords : List (List Char)) : Bool :=
  keywords.any (fun k => substr k text)

/-- The result record of `recommend_model`: a dict with keys
`model`, `reason`, `alternatives`. -/
structure Recommendation where
  model : String
  reason : String
  alternatives : String
deriving DecidableEq

/-- The closed set of model labels the program can emit. -/
def modelLabels : List String := ["o3", "o4-mini", "GPT-4o", "GPT-4.1"]

/-- `audio_kw` from the source. -/
def audio_kw : List (List Char) :=
  (["voice", "audio", "sprache", "mikrofon", "aufnehmen", "aufnahme",
    "sprachnachricht", "transkrib", "diktat"] : List String).map String.toList

/-- `image_kw` from the source. -/
def image_kw : List (List Char) :=
  (["bild", "screenshot", "photo", "foto", "diagram", "image",
    "grafik", "ocr", "erkenne im bild", "beschreibe das bild"] : List String).map String.toList

/-- `code_kw` from the source. -/
def code_kw : List (List Char) :=
  (["code", "funktion", "refactor", "refaktor", "bug", "exception",
    "stack trace", "stacktrace", "kompilier", "buildfehler",
    "unit test", "unittest", "pytest", "gradle", "maven",
    ".py", ".js", ".ts", ".java", ".kt", ".cs", ".cpp", ".c", ".rb",
    ".go", ".rs", "dockerfile", "requirements.txt", "package.json"] : List String).map String.toList

/-- `reasoning_kw` from the source. -/
def reasoning_kw : List (List Char) :=
  (["architektur", "strategie", "begründ", "warum", "ableitung",
    "beweise", "beweis", "argumentiere", "schritte", "plan",
    "roadmap", "trade-off", "tradeoff", "konzept", "threat model",
    "modelliere", "analyse", "algorithm", "komplexität", "optimier",
    "logik", "puzzle", "rätsel", "fehlerursache", "ursachenanalyse",
    "entscheid", "abwegung"] : List String).map String.toList

/-- `quick_kw` from the source. -/
def quick_kw : List (List Char) :=
  (["kurz", "zusammenfassung", "tl;dr", "stichpunkte", "bullet points",
    "umformulieren", "paraphras", "kürzen", "rewrite", "übersetz",
    "translate", "emoji", "titelvorschläge", "slogan"] : List String).map String.toList

/-- `recommend_model` from the source: the ordered keyword cascade with a
length fallback.  First match wins. -/
def recommend_model (user_text : List Char) : Recommendation :=
  let t := normalize user_text
  let length := t.length
  if contains_any t audio_kw || contains_any t image_kw then
    { model := "GPT-4o",
      reason := "Audio/Bild/Multimodalität erkannt – 4o ist für Voice/Bilder optimiert.",
      alternatives := "Falls nach der Transkription/Analyse tieferes Denken nötig ist: o3. Für viele kurze Folge-Edits: o4-mini." }
  else if contains_any t code_kw then
    if contains_any t reasoning_kw || substr "algorithm".toList t || substr "architektur".toList t then
      { model := "o3",
        reason := "Coding mit konzeptueller/algorithmischer Begründung – o3 priorisiert tiefes Reasoning.",
        alternatives := "Für unmittelbares Implementieren/Refactoren: GPT-4.1. Für schnelle Iterationen: o4-mini." }
    else
      { model := "GPT-4.1",
        reason := "Konkrete Coding-Aufgabe erkannt – 4.1 befolgt Anweisungen stabil und ist stark im Refactoring/Implementieren.",
        alternatives := "Wenn Analyse/Entscheidungen verlangt sind: o3. Für viele kleine Schleifen: o4-mini." }
  else if contains_any t reasoning_kw then
    { model := "o3",
      reason := "Begriffe deuten auf Planung/Analyse/Entscheidung hin – o3 ist das Reasoning-Modell.",
      alternatives := "Wenn du viele kurze Iterationen brauchst: o4-mini. Wenn Bilder/Voice dazukommen: GPT-4o." }
  else if contains_any t quick_kw then
    { model := "o4-mini",
      reason := "Kurzarbeit/Umformulieren/Zusammenfassen – o4-mini ist schnell & kosteneffizient.",
      alternatives := "Für besonders knifflige Passagen: o3. Für Voice/Bilder: GPT-4o." }
  else if length > 700 then
    { model := "o3",
      reason := "Langer/unklarer Prompt – o3 als sichere Wahl für gründliches Denken.",
      alternatives := "Wenn es primär um schnelle Oberflächenarbeit geht: o4-mini." }
  else
    { model := "o4-mini",
      reason := "Kein spezielles Muster erkannt, eher kurze Aufgabe – o4-mini für schnelle Iterationen.",
      alternatives := "Wenn tiefere Analyse nötig wird: o3. Für Voice/Bild: GPT-4o." }

/-- Comparison variant for the redundancy claim: identical to
`recommend_model` except that the coding branch tests only
`contains_any t reasoning_kw`, without the two extra literal substring
checks for "algorithm" and "architektur". -/
def recommend_model_plain_cue (user_text : List Char) : Recommendation :=
  let t := normalize user_text
  let length := t.length
  if contains_any t audio_kw || contains_any t image_kw then
    { model := "GPT-4o",
      reason := "Audio/Bild/Multimodalität erkannt – 4o ist für Voice/Bilder optimiert.",
      alternatives := "Falls nach der Transkription/Analyse tieferes Denken nötig ist: o3. Für viele kurze Folge-Edits: o4-mini." }
  else if contains_any t code_kw then
    if contains_any t reasoning_kw then
      { model := "o3",
        reason := "Coding mit konzeptueller/algorithmischer Begründung – o3 priorisiert tiefes Reasoning.",
        alternatives := "Für unmittelbares Implementieren/Refactoren: GPT-4.1. Für schnelle Iterationen: o4-mini." }
    else
      { model := "GPT-4.1",
        reason := "Konkrete Coding-Aufgabe erkannt – 4.1 befolgt Anweisungen stabil und ist stark im Refactoring/Implementieren.",
        alternatives := "Wenn Analyse/Entscheidungen verlangt sind: o3. Für viele kleine Schleifen: o4-mini." }
  else if contains_any t reasoning_kw then
    { model := "o3",
      reason := "Begriffe deuten auf Planung/Analyse/Entscheidung hin – o3 ist das Reasoning-Modell.",
      alternatives := "Wenn du viele kurze Iterationen brauchst: o4-mini. Wenn Bilder/Voice dazukommen: GPT-4o." }
  else if contains_any t quick_kw then
    { model := "o4-mini",
      reason := "Kurzarbeit/Umformulieren/Zusammenfassen – o4-mini ist schnell & kosteneffizient.",
      alternatives := "Für besonders knifflige Passagen: o3. Für Voice/Bilder: GPT-4o." }
  else if length > 700 then
    { model := "o3",
      reason := "Langer/unklarer Prompt – o3 als sichere Wahl für gründliches Denken.",
      alternatives := "Wenn es primär um schnelle Oberflächenarbeit geht: o4-mini." }
  else
    { model := "o4-mini",
      reason := "Kein spezielles Muster erkannt, eher kurze Aufgabe – o4-mini für schnelle Iterationen.",
      alternatives := "Wenn tiefere Analyse nötig wird: o3. Für Voice/Bild: GPT-4o." }


-- ### lowerChar

theorem lowerChar_of_lookup_none {c : Char} (h : lowerPairs.lookup c = none) :
    lowerChar c = c := by
  simp [lowerChar, h]

theorem mem_of_lookup_eq_some :
    ∀ {l : List (Char × Char)} {c d : Char}, l.lookup c = some d → (c, d) ∈ l := by
  intro l
  induction l with
  | nil => intro c d h; simp [List.lookup] at h
  | cons p ps ih =>
    obtain ⟨a, b⟩ := p
    intro c d h
    rw [List.lookup] at h
    by_cases hc : (c == a) = true
    · simp only [hc] at h
      cases h
      have hca : c = a := eq_of_beq hc
      subst hca
      exact List.mem_cons_self _ _
    · simp only [Bool.not_eq_true] at hc
      simp only [hc] at h
      exact List.mem_cons_of_mem _ (ih h)

theorem lowerChar_lowerChar (c : Char) : lowerChar (lowerChar c) = lowerChar c := by
  cases h : lowerPairs.lookup c with
  | none => rw [lowerChar_of_lookup_none h, lowerChar_of_lookup_none h]
  | some d =>
    have h1 : lowerChar c = d := by simp [lowerChar, h]
    have hd : (c, d) ∈ lowerPairs := mem_of_lookup_eq_some h
    have h2 : lowerPairs.lookup d = none := by
      fin_cases hd <;> decide
    rw [h1, lowerChar_of_lookup_none h2]

-- ### collapseWS

theorem mem_collapseWS {c : Char} :
    ∀ {l : List Char}, c ∈ collapseWS l → c = ' ' ∨ c ∈ l := by
  intro l
  induction l using collapseWS.induct with
  | case1 => simp [collapseWS]
  | case2 d hd => simp [collapseWS, hd]; tauto
  | case3 d hd => simp [collapseWS, hd]; tauto
  | case4 d e cs hde ih =>
    simp only [collapseWS, hde, ite_true, if_pos]
    intro h
    rcases ih h with h' | h' <;> simp [h']
  | case5 d e cs hde ih =>
    simp only [collapseWS, hde, ite_false, if_neg, not_false_iff]
    intro h
    rcases List.mem_cons.mp h with h' | h'
    · subst h'
      by_cases hsd : isSpace d = true <;> simp [hsd]
    · rcases ih h' with h'' | h'' <;> simp [h'']

theorem collapseWS_space {c : Char} :
    ∀ {l : List Char}, c ∈ collapseWS l → isSpace c = true → c = ' ' := by
  intro l
  induction l using collapseWS.induct with
  | case1 => simp [collapseWS]
  | case2 d hd => simp [collapseWS, hd]; rintro rfl _; rfl
  | case3 d hd =>
    simp [collapseWS, hd]
    rintro rfl hc; exact absurd hc hd
  | case4 d e cs hde ih => simpa [collapseWS, hde] using ih
  | case5 d e cs hde ih =>
    simp only [collapseWS, hde, ite_false, if_neg, not_false_iff]
    intro h hc
    rcases List.mem_cons.mp h with h' | h'
    · subst h'
      by_cases hsd : isSpace d = true <;> simp_all
    · exact ih h' hc

/-- When the head of the argument is not whitespace it survives collapsing. -/
theorem collapseWS_cons_not_space {d : Char} (hd : ¬ isSpace d = true) :
    ∀ cs : List Char, ∃ r, collapseWS (d :: cs) = d :: r := by
  intro cs
  cases cs with
  | nil => exact ⟨[], by simp [collapseWS, hd]⟩
  | cons e es =>
    refine ⟨collapseWS (e :: es), ?_⟩
    have : (isSpace d && isSpace e) = false := by simp [Bool.eq_false_iff.mpr hd]
    simp [collapseWS, this, hd]

/-- Unfolding equation for the two-cons case when the guard is false. -/
theorem collapseWS_cons₂ {d e : Char} {cs : List Char}
    (h : (isSpace d && isSpace e) = false) :
    collapseWS (d :: e :: cs) = (if isSpace d then ' ' else d) :: collapseWS (e :: cs) := by
  simp [collapseWS, h]

/-- No two adjacent characters of the collapsed list are both spaces. -/
theorem collapseWS_chain :
    ∀ l : List Char, (collapseWS l).Chain' (fun a b => ¬(a = ' ' ∧ b = ' ')) := by
  intro l
  induction l using collapseWS.induct with
  | case1 => simp [collapseWS]
  | case2 d hd => simp [collapseWS, hd]
  | case3 d hd => simp [collapseWS, hd]
  | case4 d e cs hde ih => simpa [collapseWS, hde] using ih
  | case5 d e cs hde ih =>
    have hf : (isSpace d && isSpace e) = false := by simpa using hde
    rw [collapseWS_cons₂ hf, List.chain'_cons']
    refine ⟨?_, ih⟩
    intro b hb
    rcases Bool.and_eq_false_iff.mp hf with hd | he
    · intro hcon
      rw [if_neg (by simp [hd])] at hcon
      obtain ⟨h1, _⟩ := hcon
      subst h1
      simp [isSpace] at hd
    · intro hcon
      obtain ⟨_, h2⟩ := hcon
      obtain ⟨r, hr⟩ := collapseWS_cons_not_space (d := e) (by simp [he]) cs
      rw [hr] at hb
      simp at hb
      subst hb
      subst h2
      simp [isSpace] at he



/-- Collapsing is the identity on lists whose whitespace is only single,
non-adjacent plain spaces. -/
theorem collapseWS_eq_self :
    ∀ l : List Char, (∀ c ∈ l, isSpace c = true → c = ' ') →
      l.Chain' (fun a b => ¬(a = ' ' ∧ b = ' ')) → collapseWS l = l := by
  intro l
  induction l using collapseWS.induct with
  | case1 => intro _ _; rfl
  | case2 d hd =>
    intro hmem _
    have : d = ' ' := hmem d (by simp) hd
    simp [collapseWS, hd, this]
  | case3 d hd => intro _ _; simp [collapseWS, hd]
  | case4 d e cs hde ih =>
    intro hmem hch
    obtain ⟨hd, he⟩ := Bool.and_eq_true_iff.mp hde
    have hd' : d = ' ' := hmem d (by simp) hd
    have he' : e = ' ' := hmem e (by simp) he
    have := (List.chain'_cons.mp hch).1
    exact absurd ⟨hd', he'⟩ this
  | case5 d e cs hde ih =>
    intro hmem hch
    have hf : (isSpace d && isSpace e) = false := by simpa using hde
    rw [collapseWS_cons₂ hf]
    have htl : collapseWS (e :: cs) = e :: cs :=
      ih (fun c hc => hmem c (List.mem_cons_of_mem _ hc)) (List.chain'_cons'.mp hch).2
    rw [htl]
    by_cases hsd : isSpace d = true
    · rw [if_pos hsd, hmem d (by simp) hsd]
    · rw [if_neg hsd]

-- ### stripWS

theorem stripWS_pre (l : List Char) : stripWS l <+: List.dropWhile isSpace l := by
  have h : (List.dropWhile isSpace (List.dropWhile isSpace l).reverse).reverse <+:
      (List.dropWhile isSpace l).reverse.reverse :=
    List.reverse_prefix.mpr (List.dropWhile_suffix _)
  rw [List.reverse_reverse] at h
  exact h

/-- The stripped list sits inside the original list. -/
theorem stripWS_infixOf (l : List Char) : stripWS l <:+: l := by
  exact List.infix_iff_prefix_suffix.mpr
    ⟨List.dropWhile isSpace l, stripWS_pre l, List.dropWhile_suffix _⟩

/-- The stripped list never starts with whitespace. -/
theorem stripWS_head_not_space {l r : List Char} {c : Char}
    (h : stripWS l = c :: r) : isSpace c = false := by
  obtain ⟨t, ht⟩ := stripWS_pre l
  have h0 := List.head?_dropWhile_not isSpace l
  rw [← ht, h] at h0
  simpa using h0

/-- Reversed, the stripped list again never starts with whitespace. -/
theorem stripWS_reverse_head_not_space {l r : List Char} {c : Char}
    (h : (stripWS l).reverse = c :: r) : isSpace c = false := by
  have he : (stripWS l).reverse = List.dropWhile isSpace (List.dropWhile isSpace l).reverse := by
    simp [stripWS]
  rw [he] at h
  have h0 := List.head?_dropWhile_not isSpace (List.dropWhile isSpace l).reverse
  rw [h] at h0
  simpa using h0

/-- Stripping twice is the same as stripping once. -/
theorem stripWS_stripWS (l : List Char) : stripWS (stripWS l) = stripWS l := by
  have h1 : List.dropWhile isSpace (stripWS l) = stripWS l := by
    cases hm : stripWS l with
    | nil => rfl
    | cons c r =>
      have hc : isSpace c = false := stripWS_head_not_space hm
      simp [List.dropWhile_cons, hc]
  have h2 : List.dropWhile isSpace (stripWS l).reverse = (stripWS l).reverse := by
    cases hm : (stripWS l).reverse with
    | nil => rfl
    | cons c r =>
      have hc : isSpace c = false := stripWS_reverse_head_not_space hm
      simp [List.dropWhile_cons, hc]
  show ((List.dropWhile isSpace (stripWS l)).reverse.dropWhile isSpace).reverse = stripWS l
  rw [h1, h2, List.reverse_reverse]

-- ### normalize is idempotent

theorem normalize_map_lowerChar (s : List Char) :
    (normalize s).map lowerChar = normalize s := by
  have hmem : ∀ c ∈ normalize s, lowerChar c = c := by
    intro c hc
    have hc' : c ∈ collapseWS (s.map lowerChar) :=
      (stripWS_infixOf _).subset hc
    rcases mem_collapseWS hc' with h | h
    · subst h; decide
    · obtain ⟨x, _, hx⟩ := List.mem_map.mp h
      rw [← hx]
      exact lowerChar_lowerChar x
  exact (List.map_congr_left hmem).trans (List.map_id' _)

theorem collapseWS_normalize (s : List Char) :
    collapseWS (normalize s) = normalize s := by
  apply collapseWS_eq_self
  · intro c hc hsp
    exact collapseWS_space ((stripWS_infixOf _).subset hc) hsp
  · exact List.Chain'.infix (collapseWS_chain _) (stripWS_infixOf _)

theorem normalize_idem (s : List Char) : normalize (normalize s) = normalize s := by
  rw [normalize]
  rw [normalize_map_lowerChar s, collapseWS_normalize s]
  rw [normalize]
  exact stripWS_stripWS _


-- ### Claim theorems

/-- C1: for every input whose normalized text contains any audio keyword or
any image keyword, `recommend_model` returns the multimodal model "GPT-4o",
regardless of which other keywords the text also contains. -/
theorem claim_C1_modality_priority (s : List Char)
    (h : (contains_any (normalize s) audio_kw || contains_any (normalize s) image_kw) = true) :
    (recommend_model s).model = "GPT-4o" := by
  simp [recommend_model, h]

/-- Witness for C1 at an input holding audio, code, reasoning and quick-edit
keywords at once. -/
theorem claim_C1_witness :
    (contains_any (normalize "Voice Code warum kurz".toList) audio_kw ||
      contains_any (normalize "Voice Code warum kurz".toList) image_kw) = true ∧
    (recommend_model "Voice Code warum kurz".toList).model = "GPT-4o" :=
  ⟨by decide, claim_C1_modality_priority _ (by decide)⟩

/-- C2: when the normalized text has no audio/image keyword but has a code
keyword, the result is "o3" exactly when a reasoning keyword or one of the
literal substrings "algorithm"/"architektur" is present, and "GPT-4.1"
otherwise. -/
theorem claim_C2_coding_split (s : List Char)
    (h1 : (contains_any (normalize s) audio_kw || contains_any (normalize s) image_kw) = false)
    (h2 : contains_any (normalize s) code_kw = true) :
    (recommend_model s).model =
      if contains_any (normalize s) reasoning_kw
          || substr "algorithm".toList (normalize s)
          || substr "architektur".toList (normalize s)
        then "o3" else "GPT-4.1" := by
  by_cases h3 : (contains_any (normalize s) reasoning_kw
      || substr "algorithm".toList (normalize s)
      || substr "architektur".toList (normalize s)) = true
  · simp only [recommend_model, h1, h2, h3]
    rfl
  · rw [Bool.not_eq_true] at h3
    simp only [recommend_model, h1, h2, h3]
    rfl

/-- Witness for C2 at a coding prompt without any reasoning cue. -/
theorem claim_C2_witness :
    (contains_any (normalize "Refactor this function, it throws an exception".toList) audio_kw ||
      contains_any (normalize "Refactor this function, it throws an exception".toList) image_kw) = false ∧
    contains_any (normalize "Refactor this function, it throws an exception".toList) code_kw = true ∧
    (recommend_model "Refactor this function, it throws an exception".toList).model =
      (if contains_any (normalize "Refactor this function, it throws an exception".toList) reasoning_kw
          || substr "algorithm".toList (normalize "Refactor this function, it throws an exception".toList)
          || substr "architektur".toList (normalize "Refactor this function, it throws an exception".toList)
        then "o3" else "GPT-4.1") :=
  ⟨by decide, by decide, claim_C2_coding_split _ (by decide) (by decide)⟩

/-- C3: when the normalized text matches none of the five keyword sets the
result falls back to the length rule: "o3" for strictly more than 700
normalized characters, "o4-mini" otherwise (so exactly 700 gives "o4-mini"). -/
theorem claim_C3_length_fallback (s : List Char)
    (h1 : contains_any (normalize s) audio_kw = false)
    (h2 : contains_any (normalize s) image_kw = false)
    (h3 : contains_any (normalize s) code_kw = false)
    (h4 : contains_any (normalize s) reasoning_kw = false)
    (h5 : contains_any (normalize s) quick_kw = false) :
    (recommend_model s).model = if (normalize s).length > 700 then "o3" else "o4-mini" := by
  by_cases h6 : (normalize s).length > 700
  · simp [recommend_model, h1, h2, h3, h4, h5, h6]
  · simp [recommend_model, h1, h2, h3, h4, h5, h6]

/-- Witness for C3 at a short keyword-free input. -/
theorem claim_C3_witness :
    contains_any (normalize "xyz".toList) audio_kw = false ∧
    contains_any (normalize "xyz".toList) image_kw = false ∧
    contains_any (normalize "xyz".toList) code_kw = false ∧
    contains_any (normalize "xyz".toList) reasoning_kw = false ∧
    contains_any (normalize "xyz".toList) quick_kw = false ∧
    (recommend_model "xyz".toList).model =
      (if (normalize "xyz".toList).length > 700 then "o3" else "o4-mini") :=
  ⟨by decide, by decide, by decide, by decide, by decide,
    claim_C3_length_fallback _ (by decide) (by decide) (by decide) (by decide) (by decide)⟩

/-- C4: `recommend_model` is total: every input yields a recommendation whose
model is one of the four labels and whose reason and alternatives texts are
nonempty; the empty input yields the fast-iteration default "o4-mini". -/
theorem claim_C4_total :
    (∀ s : List Char, (recommend_model s).model ∈ modelLabels ∧
        0 < (recommend_model s).reason.length ∧
        0 < (recommend_model s).alternatives.length) ∧
      (recommend_model []).model = "o4-mini" := by
  refine ⟨fun s => ?_, by decide⟩
  simp only [recommend_model]
  repeat' split
  all_goals exact ⟨by decide, by decide, by decide⟩

/-- C5: a reasoning keyword with no audio/image and no code keyword yields
the reasoning model "o3". -/
theorem claim_C5_pure_reasoning (s : List Char)
    (h1 : contains_any (normalize s) audio_kw = false)
    (h2 : contains_any (normalize s) image_kw = false)
    (h3 : contains_any (normalize s) code_kw = false)
    (h4 : contains_any (normalize s) reasoning_kw = true) :
    (recommend_model s).model = "o3" := by
  simp [recommend_model, h1, h2, h3, h4]

/-- Witness for C5. -/
theorem claim_C5_witness :
    contains_any (normalize "Warum ist das so".toList) audio_kw = false ∧
    contains_any (normalize "Warum ist das so".toList) image_kw = false ∧
    contains_any (normalize "Warum ist das so".toList) code_kw = false ∧
    contains_any (normalize "Warum ist das so".toList) reasoning_kw = true ∧
    (recommend_model "Warum ist das so".toList).model = "o3" :=
  ⟨by decide, by decide, by decide, by decide,
    claim_C5_pure_reasoning _ (by decide) (by decide) (by decide) (by decide)⟩

/-- C6: a quick-edit keyword with no audio/image, code or reasoning keyword
yields the fast-iteration model "o4-mini". -/
theorem claim_C6_quick (s : List Char)
    (h1 : contains_any (normalize s) audio_kw = false)
    (h2 : contains_any (normalize s) image_kw = false)
    (h3 : contains_any (normalize s) code_kw = false)
    (h4 : contains_any (normalize s) reasoning_kw = false)
    (h5 : contains_any (normalize s) quick_kw = true) :
    (recommend_model s).model = "o4-mini" := by
  simp [recommend_model, h1, h2, h3, h4, h5]

/-- Witness for C6. -/
theorem claim_C6_witness :
    contains_any (normalize "tl;dr bitte".toList) audio_kw = false ∧
    contains_any (normalize "tl;dr bitte".toList) image_kw = false ∧
    contains_any (normalize "tl;dr bitte".toList) code_kw = false ∧
    contains_any (normalize "tl;dr bitte".toList) reasoning_kw = false ∧
    contains_any (normalize "tl;dr bitte".toList) quick_kw = true ∧
    (recommend_model "tl;dr bitte".toList).model = "o4-mini" :=
  ⟨by decide, by decide, by decide, by decide, by decide,
    claim_C6_quick _ (by decide) (by decide) (by decide) (by decide) (by decide)⟩

/-- C7 counterexample: the input "code architecture" has a code keyword and
the literal token "architecture", no audio/image keyword and no reasoning
keyword, yet the code returns "GPT-4.1", not "o3": the source tests the
German literal "architektur", not "architecture". -/
theorem claim_C7_counterexample :
    (contains_any (normalize "code architecture".toList) audio_kw ||
      contains_any (normalize "code architecture".toList) image_kw) = false ∧
    contains_any (normalize "code architecture".toList) code_kw = true ∧
    substr "architecture".toList (normalize "code architecture".toList) = true ∧
    contains_any (normalize "code architecture".toList) reasoning_kw = false ∧
    (recommend_model "code architecture".toList).model = "GPT-4.1" ∧
    (recommend_model "code architecture".toList).model ≠ "o3" := by
  refine ⟨by decide, by decide, by decide, by decide, by decide, by decide⟩

/-- C7 amended: with a code keyword, no audio/image keyword and the literal
token "architektur" (the token the code really tests), the result is "o3". -/
theorem claim_C7_amended (s : List Char)
    (h1 : (contains_any (normalize s) audio_kw || contains_any (normalize s) image_kw) = false)
    (h2 : contains_any (normalize s) code_kw = true)
    (h3 : substr "architektur".toList (normalize s) = true) :
    (recommend_model s).model = "o3" := by
  simp only [recommend_model, h1, h2, h3, Bool.or_true]
  rfl

/-- Witness for the amended C7. -/
theorem claim_C7_witness :
    (contains_any (normalize "code architektur".toList) audio_kw ||
      contains_any (normalize "code architektur".toList) image_kw) = false ∧
    contains_any (normalize "code architektur".toList) code_kw = true ∧
    substr "architektur".toList (normalize "code architektur".toList) = true ∧
    (recommend_model "code architektur".toList).model = "o3" :=
  ⟨by decide, by decide, by decide,
    claim_C7_amended _ (by decide) (by decide) (by decide)⟩

/-- C8: classification is case-insensitive: two inputs that agree after
per-character lowercasing get the same recommendation. -/
theorem claim_C8_case_insensitive (s s' : List Char)
    (h : s.map lowerChar = s'.map lowerChar) :
    recommend_model s = recommend_model s' := by
  have hn : normalize s = normalize s' := by
    unfold normalize
    rw [h]
  simp only [recommend_model, hn]

/-- Witness for C8 on a casing variant pair. -/
theorem claim_C8_witness :
    ("REFACTOR den BUG".toList).map lowerChar = ("Refactor den Bug".toList).map lowerChar ∧
    recommend_model "REFACTOR den BUG".toList = recommend_model "Refactor den Bug".toList :=
  ⟨by decide, claim_C8_case_insensitive _ _ (by decide)⟩

/-- C9: `normalize` is idempotent. -/
theorem claim_C9_normalize_idem (s : List Char) :
    normalize (normalize s) = normalize s :=
  normalize_idem s

/-- The coding-branch condition of the source collapses to the plain
reasoning-keyword test: "algorithm" and "architektur" are both members of
`reasoning_kw`, so the two literal substring checks never change it. -/
theorem cue_eq (t : List Char) :
    (contains_any t reasoning_kw || substr "algorithm".toList t
      || substr "architektur".toList t) = contains_any t reasoning_kw := by
  cases hb : contains_any t reasoning_kw with
  | true => simp
  | false =>
    have key : ∀ k : List Char, k ∈ reasoning_kw → substr k t = false := by
      intro k hk
      cases hs : substr k t with
      | false => rfl
      | true =>
        exfalso
        have : contains_any t reasoning_kw = true :=
          List.any_eq_true.mpr ⟨k, hk, hs⟩
        rw [this] at hb
        cases hb
    have halg : substr "algorithm".toList t = false := key _ (by decide)
    have harch : substr "architektur".toList t = false := key _ (by decide)
    simp only [halg, harch, Bool.or_false]

/-- C10: the two extra literal checks in the coding branch are redundant:
`recommend_model` agrees extensionally with the variant whose coding branch
tests only membership of a reasoning keyword, because "algorithm" and
"architektur" are both members of `reasoning_kw`. -/
theorem claim_C10_redundant_literals (s : List Char) :
    recommend_model s = recommend_model_plain_cue s := by
  simp only [recommend_model, recommend_model_plain_cue, cue_eq]


-- ### Concrete scenario checks (spec §8) and the 700-character boundary

/-- Scenario: a transcription request routes to the multimodal model. -/
theorem scenario_transcribe :
    (recommend_model "Bitte transkribiere diese Sprachnachricht".toList).model = "GPT-4o" := by
  decide

/-- Scenario: a plain refactoring request routes to the direct-coding model. -/
theorem scenario_refactor :
    (recommend_model "Refactor this function, it throws an exception".toList).model = "GPT-4.1" := by
  decide

/-- Scenario: an architecture-justification request routes to the reasoning
model. -/
theorem scenario_architektur :
    (recommend_model "Begründe die Architektur-Entscheidung für dieses Modul, inklusive Trade-offs".toList).model
      = "o3" := by
  decide

/-- Scenario: a summary request routes to the fast-iteration model. -/
theorem scenario_tldr :
    (recommend_model "tl;dr bitte".toList).model = "o4-mini" := by
  decide

/-- Scenario: the empty input yields the fast-iteration default. -/
theorem scenario_empty :
    (recommend_model "".toList).model = "o4-mini" := by
  decide

set_option maxRecDepth 4000 in
/-- Boundary check: an unmatched input of exactly 700 normalized characters
takes the fast-iteration branch, since the fallback test is a strict
greater-than. -/
theorem fallback_boundary_700 :
    (normalize (List.replicate 700 'x')).length = 700 ∧
    (recommend_model (List.replicate 700 'x')).model = "o4-mini" := by
  constructor <;> decide

end Router
